import Mathlib

/-!
Verification development for the solidtime-vscode time-tracking extension.

Each namespace shallowly embeds one source module:
* `Api`     — `src/api.ts` (first variant): `getEntries` response normalization
              and the calendar-day query window.
* `ApiV2`   — `src/api.ts` (second variant): the `sendUpdate` request payload
              anchored at `startTime`.
* `ApiMap`  — the per-project-key `sendUpdate` variant keyed by
              `mapProjectKeyToCurrentTimeEntryId`.
* `Tracker` — `src/tracker.ts`: `refreshTimeEntries`, `sendHeartbeat`,
              `sendTimeUpdate` and the heartbeat tick of `startTracking`.
* `Service` — `src/services/timeTracker.ts`: `TimeTrackerService` slices,
              the idle watcher and `_beat`.

Timestamps and durations are modelled as `Nat` milliseconds since the epoch;
JavaScript `null`/`undefined` string fields are `Option String`; a remote call
that may fail is parameterized by its outcome.
-/

namespace Api

/-- Models the JavaScript expression `x || "No project"` on a nullable string:
`null`, `undefined` and the empty string are falsy and yield the sentinel. -/
def jsOrNoProject (projectId : Option String) : String :=
  match projectId with
  | none => "No project"
  | some s => if s = "" then "No project" else s

/-- Raw entry shape produced by the remote ledger (`data.data` elements of the
list-entries response): `duration` is in seconds, `project_id` nullable. -/
structure RawEntry where
  id : String
  start : String
  duration : Nat
  project_id : Option String
deriving Repr, DecidableEq

/-- Normalized entry returned by `getEntries` (`src/api.ts` interface
`TimeEntry`): `duration` in milliseconds, `project` a non-null key. -/
structure TimeEntry where
  id : String
  start : String
  duration : Nat
  project : String
deriving Repr, DecidableEq

/-- `getEntries` (`src/api.ts:73-109`), abstracted over the outcome of the
HTTP fetch/parse: on success it maps each raw entry to
`{id, start, duration: duration * 1000, project: project_id || "No project"}`;
any error inside the `try` is caught and the empty list is returned. -/
def getEntries (fetchResult : Except String (List RawEntry)) : List TimeEntry :=
  match fetchResult with
  | Except.ok data =>
      data.map (fun entry =>
        { id := entry.id
          start := entry.start
          duration := entry.duration * 1000
          project := jsOrNoProject entry.project_id })
  | Except.error _ => []

/-- Milliseconds per calendar day. -/
def msPerDay : Nat := 86400000

/-- Start bound of the query window of `getEntries` (`src/api.ts:79-80`):
`new Date(now).toISOString().split("T")[0] + "T00:00:00Z"`, i.e. midnight of
the current UTC calendar date, as a ms timestamp. -/
def queryStartMs (now : Nat) : Nat := now / msPerDay * msPerDay

/-- End bound of the query window of `getEntries` (`src/api.ts:81`):
`today + "T23:59:59Z"` on the current UTC calendar date. -/
def queryEndMs (now : Nat) : Nat := queryStartMs now + 86399000

/-- Modelled from the spec: the start of the current calendar day in the
user's local time zone (offset `offsetMs` east of UTC, in ms), expressed as a
UTC timestamp; this is what the claim says the query start bound is. -/
def localDayStartUtcMs (now : Nat) (offsetMs : Int) : Int :=
  ((now : Int) + offsetMs).fdiv (msPerDay : Int) * (msPerDay : Int) - offsetMs

/-- Modelled from the spec: 23:59:59 of the current local calendar day as a
UTC timestamp. -/
def localDayEndUtcMs (now : Nat) (offsetMs : Int) : Int :=
  localDayStartUtcMs now offsetMs + 86399000

end Api

namespace ApiV2

/-- Request body built by the `startTime`-anchored `sendUpdate`
(`src/api.ts:286-295`, second variant). `endMs` stands for the reserved word
`end`; times are ms timestamps, `duration` is in seconds. -/
structure TimeEntryPayload where
  member_id : String
  start : Nat
  endMs : Nat
  duration : Nat
  billable : Bool
  project_id : Option String
  description : String
deriving Repr, DecidableEq

/-- Payload construction of `sendUpdate` (`src/api.ts:271-296`, second
variant): `durationSeconds = floor(time / 1000)`, `start = startTime`,
`end = startTime + durationSeconds * 1000`. -/
def sendUpdatePayload (time startTime : Nat) (memberId : String)
    (projectId : Option String) : TimeEntryPayload :=
  let durationSeconds := time / 1000
  { member_id := memberId
    start := startTime
    endMs := startTime + durationSeconds * 1000
    duration := durationSeconds
    billable := false
    project_id := projectId
    description := "Coding time from VSCode extension" }

end ApiV2

namespace ApiMap

/-- Modelled from the spec: the module `functions/project` is not in the
source tree, only its import; its `getProjectKey` is modelled as
`projectId || 'No project'`, matching the sentinel rule of spec §4.2 and the
identically named in-class helper `TimeTracker.getProjectKey`
(`src/tracker.ts:40-42`). -/
def getProjectKey (projectId : Option String) : String :=
  match projectId with
  | none => "No project"
  | some s => if s = "" then "No project" else s

/-- A remote write issued by `sendUpdate`: a POST creating an entry for the
project key, or a PUT addressed to an already bound entry id. -/
inductive ApiCall where
  | create (projectKey : String)
  | update (projectKey : String) (entryId : String)
deriving Repr, DecidableEq

/-- Outcome of the awaited remote HTTP call. -/
inductive RemoteResult where
  | ok
  | fail
deriving Repr, DecidableEq

/-- JavaScript truthiness of `map[key]`: absent keys and the empty string are
falsy. -/
def truthyLookup (binding : List (String × String)) (key : String) :
    Option String :=
  match binding.lookup key with
  | none => none
  | some v => if v = "" then none else some v

/-- Result of one `sendUpdate` invocation: the new
`mapProjectKeyToCurrentTimeEntryId`, the single remote call it issued, and
whether the call's failure was rethrown to the caller. -/
structure SendUpdateResult where
  binding : List (String × String)
  call : ApiCall
  threw : Bool
deriving Repr, DecidableEq

/-- The per-project-key `sendUpdate` (second api variant, lines 179-223):
if no entry id is bound to `getProjectKey projectId`, it issues one create
call and on success stores the returned `newId` under that key; otherwise it
issues one update call addressed to the bound id and leaves the binding
unchanged. A failed remote call leaves the binding unchanged and rethrows. -/
def sendUpdate (binding : List (String × String)) (projectId : Option String)
    (newId : String) (r : RemoteResult) : SendUpdateResult :=
  let projectKey := getProjectKey projectId
  match truthyLookup binding projectKey with
  | none =>
      match r with
      | RemoteResult.ok =>
          ⟨(projectKey, newId) :: binding, ApiCall.create projectKey, false⟩
      | RemoteResult.fail => ⟨binding, ApiCall.create projectKey, true⟩
  | some entryId =>
      ⟨binding, ApiCall.update projectKey entryId,
        match r with | RemoteResult.ok => false | RemoteResult.fail => true⟩

end ApiMap

namespace Tracker

/-- `TimeTracker.getProjectKey` (`src/tracker.ts:40-42`):
`projectId || 'No project'`. -/
def getProjectKey (projectId : Option String) : String :=
  match projectId with
  | none => "No project"
  | some s => if s = "" then "No project" else s

/-- Raw remote entry as consumed by `refreshTimeEntries`: `duration` and
`project_id` are nullable in the wire type. -/
structure Entry where
  id : String
  duration : Option Nat
  project_id : Option String
deriving Repr, DecidableEq

/-- Models `entry.duration || 0`. -/
def durOrZero (duration : Option Nat) : Nat :=
  match duration with
  | none => 0
  | some d => d

/-- The mutable fields of `TimeTracker` (`src/tracker.ts:8-19`) touched by
the modelled methods.  The status-bar text is a pure function of `totalTime`
and is not tracked separately. -/
structure TrackerState where
  startTime : Nat
  totalTime : Nat
  lastHeartbeat : Nat
  lastProjectId : Option String
  projectSessionTimes : List (String × Nat)
  projectTime : Nat
  pendingDuration : Nat
  processedEntryIds : List String
deriving Repr, DecidableEq

def IDLE_TIMEOUT : Nat := 15 * 60 * 1000
def HEARTBEAT_INTERVAL : Nat := 2 * 60 * 1000
def FILE_CHANGE_THRESHOLD : Nat := 30 * 1000

/-- `TimeTracker.getProjectSessionTime` (`src/tracker.ts:44-51`): returns the
stored session start for the key, inserting `now` first when the stored value
is missing (or `0`, which is falsy in JavaScript). -/
def getProjectSessionTime (s : TrackerState) (projectId : Option String)
    (now : Nat) : TrackerState × Nat :=
  let key := getProjectKey projectId
  match s.projectSessionTimes.lookup key with
  | some t =>
      if t = 0 then
        ({ s with projectSessionTimes := (key, now) :: s.projectSessionTimes }, now)
      else (s, t)
  | none =>
      ({ s with projectSessionTimes := (key, now) :: s.projectSessionTimes }, now)

/-- `TimeTracker.refreshTimeEntries` (`src/tracker.ts:102-151`) on the
already-fetched `entries`; `projectId` is the workspace mapping lookup and
`now` the current clock.  Entries whose id was already processed are dropped,
the remaining ids are recorded, and `projectTime` / `totalTime` are
overwritten with the duration sums of the surviving entries. -/
def refreshTimeEntries (s : TrackerState) (entries : List Entry)
    (projectId : Option String) (now : Nat) : TrackerState :=
  let projectKey := getProjectKey projectId
  let s1 :=
    if s.lastProjectId ≠ projectId then
      { s with startTime := now, lastProjectId := projectId }
    else s
  let uniqueEntries := entries.filter (fun e => !(s1.processedEntryIds.contains e.id))
  let s2 := { s1 with
    processedEntryIds := s1.processedEntryIds ++ uniqueEntries.map (fun (e : Entry) => e.id) }
  let projectEntries := uniqueEntries.filter
    (fun e => getProjectKey e.project_id == projectKey)
  let projectTime := (projectEntries.map (fun e => durOrZero e.duration)).sum
  let totalTime := (uniqueEntries.map (fun e => durOrZero e.duration)).sum
  let s3 := { s2 with projectTime := projectTime, startTime := now, totalTime := totalTime }
  (getProjectSessionTime s3 projectId now).1

/-- Result of one synchronization step: the tracker state, the api module's
entry-id binding, and the remote create/update call issued (if any).  The
step never throws: `sendTimeUpdate` wraps everything in try/catch. -/
structure StepResult where
  state : TrackerState
  binding : List (String × String)
  call : Option ApiMap.ApiCall
deriving Repr, DecidableEq

/-- `TimeTracker.sendTimeUpdate` (`src/tracker.ts:231-260`).  On a project
change it records the new project and runs `refreshTimeEntries` (a read, no
create/update call).  Otherwise it records the session start, issues
`sendUpdate`, and only on success folds `pendingDuration` into `totalTime`.
The surrounding try/catch makes the step total. -/
def sendTimeUpdate (s : TrackerState) (binding : List (String × String))
    (projectId : Option String) (now : Nat) (entries : List Entry)
    (newId : String) (r : ApiMap.RemoteResult) : StepResult :=
  if s.lastProjectId ≠ projectId then
    let s1 := { s with lastProjectId := projectId }
    ⟨refreshTimeEntries s1 entries projectId now, binding, none⟩
  else
    let s1 := (getProjectSessionTime s projectId now).1
    let result := ApiMap.sendUpdate binding projectId newId r
    if result.threw then ⟨s1, result.binding, some result.call⟩
    else
      ⟨{ s1 with totalTime := s1.totalTime + s1.pendingDuration, pendingDuration := 0 },
        result.binding, some result.call⟩

/-- `TimeTracker.sendHeartbeat` (`src/tracker.ts:68-87`): below the
30s threshold or without an active editor it is a no-op; otherwise it adds
the elapsed delta to `pendingDuration` (unless the delta exceeds the idle
timeout), advances `lastHeartbeat` to `now`, and runs `sendTimeUpdate`. -/
def sendHeartbeat (s : TrackerState) (binding : List (String × String))
    (now : Nat) (hasEditor : Bool) (projectId : Option String)
    (entries : List Entry) (newId : String) (r : ApiMap.RemoteResult) :
    StepResult :=
  let timeSinceLastHeartbeat := now - s.lastHeartbeat
  if timeSinceLastHeartbeat < FILE_CHANGE_THRESHOLD then ⟨s, binding, none⟩
  else if !hasEditor then ⟨s, binding, none⟩
  else
    let s1 :=
      if timeSinceLastHeartbeat ≤ IDLE_TIMEOUT then
        { s with pendingDuration := s.pendingDuration + timeSinceLastHeartbeat }
      else s
    let s2 := { s1 with lastHeartbeat := now }
    sendTimeUpdate s2 binding projectId now entries newId r

/-- One firing of the `startTracking` interval (`src/tracker.ts:208-218`):
if the user was recently active and the window is focused, and at least
`HEARTBEAT_INTERVAL` elapsed since `lastHeartbeat`, run `sendHeartbeat`;
otherwise do nothing. -/
def tick (s : TrackerState) (binding : List (String × String))
    (now lastCodingActivity : Nat) (focused hasEditor : Bool)
    (projectId : Option String) (entries : List Entry) (newId : String)
    (r : ApiMap.RemoteResult) : StepResult :=
  if now - lastCodingActivity ≤ IDLE_TIMEOUT ∧ focused then
    if now - s.lastHeartbeat ≥ HEARTBEAT_INTERVAL then
      sendHeartbeat s binding now hasEditor projectId entries newId r
    else ⟨s, binding, none⟩
  else ⟨s, binding, none⟩

/-- Scheduler state for reasoning about overlapping synchronization calls:
the tracker and binding, plus the number of issued remote calls whose
completion has not yet been observed.  Nothing in `TimeTracker` reads or
writes such a count; it is ghost state recording what an execution observes. -/
structure SchedState where
  tracker : TrackerState
  binding : List (String × String)
  inFlight : Nat
deriving Repr, DecidableEq

/-- An event of an execution: a timer tick (with the environment it samples),
or the completion of a previously issued remote call. -/
inductive SchedEvent where
  | tick (now lastCodingActivity : Nat) (focused hasEditor : Bool)
      (projectId : Option String) (entries : List Entry) (newId : String)
      (r : ApiMap.RemoteResult)
  | complete
deriving Repr, DecidableEq

/-- What one tick observed: how many remote calls were still in flight when
it fired, and the remote call it issued (if any). -/
structure TickObs where
  inFlightBefore : Nat
  issued : Option ApiMap.ApiCall
deriving Repr, DecidableEq

/-- One scheduler step. -/
def schedStep (st : SchedState) (ev : SchedEvent) : SchedState × Option TickObs :=
  match ev with
  | SchedEvent.tick now la focused hasEditor projectId entries newId r =>
      let res := tick st.tracker st.binding now la focused hasEditor projectId entries newId r
      let issuedCount := match res.call with | some _ => 1 | none => 0
      (⟨res.state, res.binding, st.inFlight + issuedCount⟩,
        some ⟨st.inFlight, res.call⟩)
  | SchedEvent.complete => (⟨st.tracker, st.binding, st.inFlight - 1⟩, none)

/-- Run a list of events, collecting the per-tick observations. -/
def runSched (st : SchedState) : List SchedEvent → SchedState × List TickObs
  | [] => (st, [])
  | ev :: evs =>
      let step := schedStep st ev
      let rest := runSched step.1 evs
      (rest.1, step.2.toList ++ rest.2)

end Tracker

namespace Service

def DEFAULT_IDLE_THRESHOLD_MS : Nat := 120000
def IDLE_WATCHER_INTERVAL_MS : Nat := 30000
def ONE_MINUTE_MS : Nat := 60000

/-- `TimeSlice` (`src/services/timeTracker.ts:13-20`). -/
structure TimeSlice where
  workspace : String
  startedAt : Nat
  endedAt : Option Nat
deriving Repr, DecidableEq

/-- The mutable fields of `TimeTrackerService`
(`src/services/timeTracker.ts:97-108`); `stored` is the content of the
in-memory `StorageDriver`. -/
structure ServiceState where
  currentRemoteId : Option String
  syncedMs : Nat
  idleThreshold : Nat
  currentSlice : Option TimeSlice
  sliceBuffer : List TimeSlice
  lastActivity : Nat
  stored : List TimeSlice
  workspace : String
deriving Repr, DecidableEq

/-- Constructor state (`src/services/timeTracker.ts:116-123`):
`idleThreshold = config.idleThresholdMs ?? DEFAULT_IDLE_THRESHOLD_MS`,
`lastActivity = Date.now()`. -/
def initState (workspace : String) (idleThresholdMs : Option Nat) (now : Nat) :
    ServiceState :=
  { currentRemoteId := none
    syncedMs := 0
    idleThreshold := idleThresholdMs.getD DEFAULT_IDLE_THRESHOLD_MS
    currentSlice := none
    sliceBuffer := []
    lastActivity := now
    stored := []
    workspace := workspace }

/-- `_beginSlice` (`src/services/timeTracker.ts:224-229`). -/
def beginSlice (s : ServiceState) (now : Nat) : ServiceState :=
  { s with currentSlice := some ⟨s.workspace, now, none⟩ }

/-- `_endSlice` (`src/services/timeTracker.ts:236-241`): stamp `endedAt`,
push the slice onto the buffer, clear the current slice. -/
def endSlice (s : ServiceState) (now : Nat) : ServiceState :=
  match s.currentSlice with
  | none => s
  | some sl =>
      { s with
        sliceBuffer := s.sliceBuffer ++ [{ sl with endedAt := some now }]
        currentSlice := none }

/-- `onActivity` (`src/services/timeTracker.ts:129-132`). -/
def onActivity (s : ServiceState) (now : Nat) : ServiceState :=
  let s1 := { s with lastActivity := now }
  match s1.currentSlice with
  | none => beginSlice s1 now
  | some _ => s1

/-- `flush` (`src/services/timeTracker.ts:172-178`): end the current slice,
then save and clear the buffer when it is non-empty. -/
def flush (s : ServiceState) (now : Nat) : ServiceState :=
  let s1 := endSlice s now
  if s1.sliceBuffer.isEmpty then s1
  else { s1 with stored := s1.stored ++ s1.sliceBuffer, sliceBuffer := [] }

/-- Poll period of `_startIdleWatcher`
(`src/services/timeTracker.ts:217`): `Math.min(30000, idleThreshold / 2)`
(exact for even thresholds). -/
def idleWatcherIntervalMs (idleThreshold : Nat) : Nat :=
  min IDLE_WATCHER_INTERVAL_MS (idleThreshold / 2)

/-- One firing of the idle watcher (`src/services/timeTracker.ts:213-217`):
if a slice is open and `now - lastActivity >= idleThreshold`, end it. -/
def idleWatcherPoll (s : ServiceState) (now : Nat) : ServiceState :=
  match s.currentSlice with
  | some _ =>
      if now - s.lastActivity ≥ s.idleThreshold then endSlice s now else s
  | none => s

/-- A remote call issued by `_beat`: create a new entry for a project, or
extend the `end` of a bound entry. -/
inductive SvcCall where
  | create (projectId : String) (start : Nat)
  | update (entryId : String) (endMs : Nat)
deriving Repr, DecidableEq

/-- `_beat` (`src/services/timeTracker.ts:250-315`): flush, then sync the
open slice (create or update, skipping deltas under one minute) or close out
the bound remote entry from the last closed slice.  Remote calls are recorded
in the returned list; `newId` is the id a successful create would return. -/
def beat (s : ServiceState) (now : Nat) (newId : String) :
    ServiceState × List SvcCall :=
  let s1 := flush s now
  match s1.currentSlice with
  | some active =>
      let totalMsSinceSliceStart := now - active.startedAt
      let deltaMsSinceLastSync := totalMsSinceSliceStart - s1.syncedMs
      if deltaMsSinceLastSync < ONE_MINUTE_MS then (s1, [])
      else
        match s1.currentRemoteId with
        | some rid =>
            ({ s1 with syncedMs := totalMsSinceSliceStart },
              [SvcCall.update rid now])
        | none =>
            ({ s1 with currentRemoteId := some newId, syncedMs := totalMsSinceSliceStart },
              [SvcCall.create active.workspace active.startedAt])
  | none =>
      match s1.currentRemoteId with
      | none => (s1, [])
      | some rid =>
          match s1.sliceBuffer.getLast? with
          | none => ({ s1 with currentRemoteId := none, syncedMs := 0 }, [])
          | some lastClosed =>
              ({ s1 with currentRemoteId := none, syncedMs := 0 },
                [SvcCall.update rid (lastClosed.endedAt.getD now)])

/-- States of `TimeTrackerService` reachable through its public operations
(construction, activity, pause/resume, flush, the idle watcher, and the
heartbeat). -/
inductive Reachable : ServiceState → Prop
  | init (workspace : String) (idleThresholdMs : Option Nat) (now : Nat) :
      Reachable (initState workspace idleThresholdMs now)
  | activity {s : ServiceState} (now : Nat) :
      Reachable s → Reachable (onActivity s now)
  | pause {s : ServiceState} (now : Nat) :
      Reachable s → Reachable (endSlice s now)
  | resume {s : ServiceState} (now : Nat) :
      Reachable s → Reachable (beginSlice s now)
  | doFlush {s : ServiceState} (now : Nat) :
      Reachable s → Reachable (flush s now)
  | poll {s : ServiceState} (now : Nat) :
      Reachable s → Reachable (idleWatcherPoll s now)
  | doBeat {s : ServiceState} (now : Nat) (newId : String) :
      Reachable s → Reachable (beat s now newId).1

end Service

/-- C10: the startTime-anchored `sendUpdate` builds an internally consistent
payload: `duration = floor(time / 1000)`, `start = startTime`,
`end = startTime + duration * 1000`, hence `end - start = duration * 1000`
exactly (nonnegativity is inherent in the `Nat` model). -/
theorem sendUpdate_payload_consistent (time startTime : Nat) (memberId : String)
    (projectId : Option String) :
    (ApiV2.sendUpdatePayload time startTime memberId projectId).duration = time / 1000 ∧
    (ApiV2.sendUpdatePayload time startTime memberId projectId).start = startTime ∧
    (ApiV2.sendUpdatePayload time startTime memberId projectId).endMs
      = startTime + time / 1000 * 1000 ∧
    (ApiV2.sendUpdatePayload time startTime memberId projectId).endMs
        - (ApiV2.sendUpdatePayload time startTime memberId projectId).start
      = (ApiV2.sendUpdatePayload time startTime memberId projectId).duration * 1000 := by
  refine ⟨rfl, rfl, rfl, ?_⟩
  simp [ApiV2.sendUpdatePayload]

/-- C9: `getEntries` normalizes units and project keys: each returned record
carries the raw entry's id and start, its duration multiplied by 1000, and
the `project_id` when that is a non-empty string, the sentinel "No project"
otherwise; a failed fetch yields the empty list (and, the function being
total, never throws). -/
theorem getEntries_normalizes (err : String) (data : List Api.RawEntry) :
    Api.getEntries (Except.error err) = [] ∧
    List.Forall₂
      (fun (e : Api.RawEntry) (t : Api.TimeEntry) =>
        t.id = e.id ∧ t.start = e.start ∧ t.duration = e.duration * 1000 ∧
        ((e.project_id = none ∨ e.project_id = some "") → t.project = "No project") ∧
        (∀ str, e.project_id = some str → str ≠ "" → t.project = str))
      data (Api.getEntries (Except.ok data)) := by
  refine ⟨rfl, ?_⟩
  unfold Api.getEntries
  rw [List.forall₂_map_right_iff]
  rw [List.forall₂_same]
  intro e _he
  refine ⟨rfl, rfl, rfl, ?_, ?_⟩
  · rintro (h | h) <;> simp [Api.jsOrNoProject, h]
  · intro str h hne
    simp [Api.jsOrNoProject, h, hne]

/-- C9 witness: the normalization evaluated on a concrete two-entry response
and a concrete failure. -/
theorem getEntries_normalizes_witness :
    Api.getEntries (Except.error "HTTP 500") = [] ∧
    List.Forall₂
      (fun (e : Api.RawEntry) (t : Api.TimeEntry) =>
        t.id = e.id ∧ t.start = e.start ∧ t.duration = e.duration * 1000 ∧
        ((e.project_id = none ∨ e.project_id = some "") → t.project = "No project") ∧
        (∀ str, e.project_id = some str → str ≠ "" → t.project = str))
      [⟨"a", "2024-01-01T08:00:00Z", 60, none⟩, ⟨"b", "2024-01-01T09:00:00Z", 90, some "p1"⟩]
      (Api.getEntries (Except.ok
        [⟨"a", "2024-01-01T08:00:00Z", 60, none⟩, ⟨"b", "2024-01-01T09:00:00Z", 90, some "p1"⟩])) :=
  getEntries_normalizes "HTTP 500"
    [⟨"a", "2024-01-01T08:00:00Z", 60, none⟩, ⟨"b", "2024-01-01T09:00:00Z", 90, some "p1"⟩]

/-- C7 counterexample: for a user whose local time zone is one hour east of
UTC, at epoch instant 0 the code's query start bound (UTC midnight, 0) is not
the local-time start of the current day (which is -3600000 ms). -/
theorem getEntries_window_not_local_cx :
    ((Api.queryStartMs 0 : Int) ≠ Api.localDayStartUtcMs 0 3600000) ∧
    ((Api.queryEndMs 0 : Int) ≠ Api.localDayEndUtcMs 0 3600000) := by decide

/-- C7 (amended): the entry-listing query window is the current UTC calendar
day — `[T00:00:00Z, T23:59:59Z]` of `now`'s UTC date — which coincides with
the claimed local-day window exactly when the local offset is zero. -/
theorem getEntries_window_is_utc_day (now : Nat) :
    (Api.queryStartMs now : Int) = Api.localDayStartUtcMs now 0 ∧
    (Api.queryEndMs now : Int) = Api.localDayEndUtcMs now 0 ∧
    Api.queryEndMs now = Api.queryStartMs now + 86399000 := by
  have h : Api.localDayStartUtcMs now 0 = ((now : Int).fdiv 86400000) * 86400000 := by
    simp [Api.localDayStartUtcMs, Api.msPerDay]
  have h2 : (now : Int).fdiv 86400000 = ((now / 86400000 : Nat) : Int) :=
    (Int.ofNat_fdiv now 86400000).symm
  refine ⟨?_, ?_, rfl⟩
  · rw [h, h2]
    simp [Api.queryStartMs, Api.msPerDay]
  · rw [Api.localDayEndUtcMs, h, h2]
    simp [Api.queryEndMs, Api.queryStartMs, Api.msPerDay]

/-- C6: create-versus-update is decided by the per-project-key binding: with
no id bound to the current project key, `sendUpdate` issues the one create
call and binds the returned id to that key; with a bound id it issues the one
update call addressed to that id and leaves the binding unchanged (each
invocation makes exactly one remote call by construction of the model,
mirroring the single `fetch` per branch in the source). -/
theorem sendUpdate_create_vs_update (binding : List (String × String))
    (projectId : Option String) (newId : String) :
    (ApiMap.truthyLookup binding (ApiMap.getProjectKey projectId) = none →
      ApiMap.sendUpdate binding projectId newId ApiMap.RemoteResult.ok
          = ⟨(ApiMap.getProjectKey projectId, newId) :: binding,
              ApiMap.ApiCall.create (ApiMap.getProjectKey projectId), false⟩ ∧
        ((ApiMap.getProjectKey projectId, newId) :: binding).lookup
            (ApiMap.getProjectKey projectId) = some newId) ∧
    (∀ eid, ApiMap.truthyLookup binding (ApiMap.getProjectKey projectId) = some eid →
      ApiMap.sendUpdate binding projectId newId ApiMap.RemoteResult.ok
        = ⟨binding, ApiMap.ApiCall.update (ApiMap.getProjectKey projectId) eid, false⟩) := by
  constructor
  · intro h
    refine ⟨?_, by simp⟩
    simp [ApiMap.sendUpdate, h]
  · intro eid h
    simp [ApiMap.sendUpdate, h]

/-- The first component of `getProjectSessionTime` differs from the input
state at most in `projectSessionTimes`. -/
theorem getProjectSessionTime_eq (s : Tracker.TrackerState) (pid : Option String)
    (now : Nat) :
    (Tracker.getProjectSessionTime s pid now).1
      = { s with projectSessionTimes :=
            (Tracker.getProjectSessionTime s pid now).1.projectSessionTimes } := by
  unfold Tracker.getProjectSessionTime
  dsimp only
  split
  · split <;> rfl
  · rfl

/-- `refreshTimeEntries` overwrites `totalTime` with the duration sum of the
fetched entries that were not yet processed. -/
theorem refresh_totalTime (s : Tracker.TrackerState) (entries : List Tracker.Entry)
    (pid : Option String) (now : Nat) :
    (Tracker.refreshTimeEntries s entries pid now).totalTime
      = ((entries.filter (fun e => !(s.processedEntryIds.contains e.id))).map
          (fun e => Tracker.durOrZero e.duration)).sum := by
  simp only [Tracker.refreshTimeEntries]
  rw [getProjectSessionTime_eq]
  split <;> simp

/-- `refreshTimeEntries` overwrites `projectTime` with the duration sum of
the not-yet-processed fetched entries matching the current project key. -/
theorem refresh_projectTime (s : Tracker.TrackerState) (entries : List Tracker.Entry)
    (pid : Option String) (now : Nat) :
    (Tracker.refreshTimeEntries s entries pid now).projectTime
      = (((entries.filter (fun e => !(s.processedEntryIds.contains e.id))).filter
            (fun e => Tracker.getProjectKey e.project_id == Tracker.getProjectKey pid)).map
          (fun e => Tracker.durOrZero e.duration)).sum := by
  simp only [Tracker.refreshTimeEntries]
  rw [getProjectSessionTime_eq]
  split <;> simp

/-- `refreshTimeEntries` appends the ids of the surviving entries to
`processedEntryIds`. -/
theorem refresh_processed (s : Tracker.TrackerState) (entries : List Tracker.Entry)
    (pid : Option String) (now : Nat) :
    (Tracker.refreshTimeEntries s entries pid now).processedEntryIds
      = s.processedEntryIds
        ++ (entries.filter (fun e => !(s.processedEntryIds.contains e.id))).map
            (fun (e : Tracker.Entry) => e.id) := by
  simp only [Tracker.refreshTimeEntries]
  rw [getProjectSessionTime_eq]
  split <;> simp

/-- After `refreshTimeEntries`, `lastProjectId` is the current project id. -/
theorem refresh_lastProjectId (s : Tracker.TrackerState) (entries : List Tracker.Entry)
    (pid : Option String) (now : Nat) :
    (Tracker.refreshTimeEntries s entries pid now).lastProjectId = pid := by
  simp only [Tracker.refreshTimeEntries]
  rw [getProjectSessionTime_eq]
  split
  next h => simp
  next h => simpa using not_not.mp h

/-- Every id of a fetched entry is processed after a refresh. -/
theorem mem_processed_after_refresh (s : Tracker.TrackerState)
    (entries : List Tracker.Entry) (pid : Option String) (now : Nat)
    (e : Tracker.Entry) (he : e ∈ entries) :
    e.id ∈ (Tracker.refreshTimeEntries s entries pid now).processedEntryIds := by
  rw [refresh_processed]
  by_cases h : e.id ∈ s.processedEntryIds
  · exact List.mem_append_left _ h
  · refine List.mem_append_right _ (List.mem_map.2 ⟨e, List.mem_filter.2 ⟨he, ?_⟩, rfl⟩)
    simp [h]

/-- C1 counterexample: with a locally held total of 500000 ms for project
"p" and a fetch returning a single fresh entry of 400000 ms for "p", the
post-reconciliation totals are 400000 ms — the claim's asserted 500000 ms is
false on the code. -/
theorem reconciliation_decrease_cx :
    (Tracker.refreshTimeEntries ⟨0, 500000, 0, some "p", [("p", 1)], 500000, 0, []⟩
        [⟨"e1", some 400000, some "p"⟩] (some "p") 600000).totalTime = 400000 ∧
    (Tracker.refreshTimeEntries ⟨0, 500000, 0, some "p", [("p", 1)], 500000, 0, []⟩
        [⟨"e1", some 400000, some "p"⟩] (some "p") 600000).projectTime = 400000 ∧
    ¬ (Tracker.refreshTimeEntries ⟨0, 500000, 0, some "p", [("p", 1)], 500000, 0, []⟩
        [⟨"e1", some 400000, some "p"⟩] (some "p") 600000).totalTime = 500000 := by
  decide

/-- C1 (amended): reconciliation overwrites unconditionally — the
post-reconciliation total equals the duration sum of the fetched entries not
previously processed, independent of the locally held total `L`; there is no
fetched-total-greater-or-equal guard. -/
theorem reconciliation_overwrites_total (s : Tracker.TrackerState) (L : Nat)
    (entries : List Tracker.Entry) (pid : Option String) (now : Nat) :
    (Tracker.refreshTimeEntries { s with totalTime := L } entries pid now).totalTime
      = ((entries.filter (fun e => !(s.processedEntryIds.contains e.id))).map
          (fun e => Tracker.durOrZero e.duration)).sum := by
  rw [refresh_totalTime]

/-- C2 counterexample: reconciling twice with the identical one-entry fetch
(400000 ms) and no activity in between leaves a total of 400000 ms after the
first run but 0 after the second — the totals change. -/
theorem refresh_idempotence_cx :
    (Tracker.refreshTimeEntries
        (Tracker.refreshTimeEntries ⟨0, 0, 0, some "p", [("p", 1)], 0, 0, []⟩
          [⟨"e1", some 400000, some "p"⟩] (some "p") 100)
        [⟨"e1", some 400000, some "p"⟩] (some "p") 200).totalTime = 0 ∧
    (Tracker.refreshTimeEntries ⟨0, 0, 0, some "p", [("p", 1)], 0, 0, []⟩
        [⟨"e1", some 400000, some "p"⟩] (some "p") 100).totalTime = 400000 ∧
    ¬ (Tracker.refreshTimeEntries
          (Tracker.refreshTimeEntries ⟨0, 0, 0, some "p", [("p", 1)], 0, 0, []⟩
            [⟨"e1", some 400000, some "p"⟩] (some "p") 100)
          [⟨"e1", some 400000, some "p"⟩] (some "p") 200).totalTime
        = (Tracker.refreshTimeEntries ⟨0, 0, 0, some "p", [("p", 1)], 0, 0, []⟩
            [⟨"e1", some 400000, some "p"⟩] (some "p") 100).totalTime := by
  decide

/-- C2 (amended): a second reconciliation with the identical fetched entries
and no intervening activity leaves `processedEntryIds` unchanged but resets
`totalTime` and `projectTime` to 0 (the sums over the now-empty set of new
entries) — it is not idempotent on the totals unless the first sum was 0. -/
theorem refresh_twice_zeroes_totals (s : Tracker.TrackerState)
    (entries : List Tracker.Entry) (pid : Option String) (now1 now2 : Nat) :
    (Tracker.refreshTimeEntries (Tracker.refreshTimeEntries s entries pid now1)
        entries pid now2).totalTime = 0 ∧
    (Tracker.refreshTimeEntries (Tracker.refreshTimeEntries s entries pid now1)
        entries pid now2).projectTime = 0 ∧
    (Tracker.refreshTimeEntries (Tracker.refreshTimeEntries s entries pid now1)
          entries pid now2).processedEntryIds
      = (Tracker.refreshTimeEntries s entries pid now1).processedEntryIds := by
  have hfilter : entries.filter
      (fun e => !((Tracker.refreshTimeEntries s entries pid now1).processedEntryIds.contains e.id))
      = [] := by
    rw [List.filter_eq_nil_iff]
    intro e he
    have hm := mem_processed_after_refresh s entries pid now1 e he
    simp [hm]
  refine ⟨?_, ?_, ?_⟩
  · rw [refresh_totalTime, hfilter]
    simp
  · rw [refresh_projectTime, hfilter]
    simp
  · rw [refresh_processed, hfilter]
    simp

/-- Projection facts for `getProjectSessionTime`: every field except
`projectSessionTimes` is untouched. -/
theorem getPST_totalTime (s : Tracker.TrackerState) (pid : Option String) (now : Nat) :
    (Tracker.getProjectSessionTime s pid now).1.totalTime = s.totalTime := by
  rw [getProjectSessionTime_eq]

theorem getPST_projectTime (s : Tracker.TrackerState) (pid : Option String) (now : Nat) :
    (Tracker.getProjectSessionTime s pid now).1.projectTime = s.projectTime := by
  rw [getProjectSessionTime_eq]

theorem getPST_processed (s : Tracker.TrackerState) (pid : Option String) (now : Nat) :
    (Tracker.getProjectSessionTime s pid now).1.processedEntryIds
      = s.processedEntryIds := by
  rw [getProjectSessionTime_eq]

theorem getPST_lastProjectId (s : Tracker.TrackerState) (pid : Option String) (now : Nat) :
    (Tracker.getProjectSessionTime s pid now).1.lastProjectId = s.lastProjectId := by
  rw [getProjectSessionTime_eq]

theorem getPST_lastHeartbeat (s : Tracker.TrackerState) (pid : Option String) (now : Nat) :
    (Tracker.getProjectSessionTime s pid now).1.lastHeartbeat = s.lastHeartbeat := by
  rw [getProjectSessionTime_eq]

theorem getPST_pendingDuration (s : Tracker.TrackerState) (pid : Option String) (now : Nat) :
    (Tracker.getProjectSessionTime s pid now).1.pendingDuration
      = s.pendingDuration := by
  rw [getProjectSessionTime_eq]

/-- A failed remote call leaves the api-module binding unchanged and is
reported as thrown in both the create and the update branch. -/
theorem sendUpdate_fail (binding : List (String × String))
    (projectId : Option String) (newId : String) :
    (ApiMap.sendUpdate binding projectId newId ApiMap.RemoteResult.fail).threw = true ∧
    (ApiMap.sendUpdate binding projectId newId ApiMap.RemoteResult.fail).binding
      = binding := by
  unfold ApiMap.sendUpdate
  dsimp only
  split <;> simp

/-- C3 counterexample: two heartbeat ticks one full heartbeat interval apart
around one remote call whose completion is never observed: the second tick
fires with one call still in flight and nevertheless issues a second remote
call — it is not dropped. -/
theorem overlapping_sync_calls_cx :
    (Tracker.runSched ⟨⟨0, 0, 0, none, [], 0, 0, []⟩, [], 0⟩
        [Tracker.SchedEvent.tick 120000 120000 true true none [] "e1" ApiMap.RemoteResult.ok,
          Tracker.SchedEvent.tick 240000 240000 true true none [] "e2" ApiMap.RemoteResult.ok]).2
      = [⟨0, some (ApiMap.ApiCall.create "No project")⟩,
          ⟨1, some (ApiMap.ApiCall.update "No project" "e1")⟩] ∧
    ∃ obs ∈ (Tracker.runSched ⟨⟨0, 0, 0, none, [], 0, 0, []⟩, [], 0⟩
        [Tracker.SchedEvent.tick 120000 120000 true true none [] "e1" ApiMap.RemoteResult.ok,
          Tracker.SchedEvent.tick 240000 240000 true true none [] "e2" ApiMap.RemoteResult.ok]).2,
      obs.inFlightBefore > 0 ∧ obs.issued ≠ none := by
  refine ⟨by decide, ⟨1, some (ApiMap.ApiCall.update "No project" "e1")⟩, by decide, by decide, by decide⟩

/-- C3 (amended): a heartbeat tick is dropped — no remote call, tracker and
binding unchanged — exactly when less than the heartbeat interval has elapsed
since `lastHeartbeat`; there is no in-flight guard: what a tick does is
independent of how many issued calls are still pending, as the scheduler step
issues precisely the call computed by `tick` from the tracker state alone. -/
theorem tick_gated_by_interval_only (trk : Tracker.TrackerState)
    (binding : List (String × String)) (n : Nat) (now lastCodingActivity : Nat)
    (focused hasEditor : Bool) (projectId : Option String)
    (entries : List Tracker.Entry) (newId : String) (r : ApiMap.RemoteResult) :
    (now - trk.lastHeartbeat < Tracker.HEARTBEAT_INTERVAL →
      Tracker.tick trk binding now lastCodingActivity focused hasEditor
          projectId entries newId r
        = ⟨trk, binding, none⟩) ∧
    (Tracker.schedStep ⟨trk, binding, n⟩
        (Tracker.SchedEvent.tick now lastCodingActivity focused hasEditor
          projectId entries newId r)).2
      = some ⟨n, (Tracker.tick trk binding now lastCodingActivity focused
          hasEditor projectId entries newId r).call⟩ := by
  constructor
  · intro h
    unfold Tracker.tick
    split
    · rw [if_neg (by omega)]
    · rfl
  · rfl

/-- C3 amended-claim witness: a tick 60s after the last heartbeat (interval
120s) is dropped, and a tick observed with 5 calls in flight issues exactly
what `tick` computes. -/
theorem tick_gated_by_interval_only_witness :
    (60000 : Nat) - (0 : Nat) < Tracker.HEARTBEAT_INTERVAL ∧
    Tracker.tick ⟨0, 0, 0, none, [], 0, 0, []⟩ [] 60000 60000 true true none [] "e1"
        ApiMap.RemoteResult.ok
      = ⟨⟨0, 0, 0, none, [], 0, 0, []⟩, [], none⟩ ∧
    (Tracker.schedStep ⟨⟨0, 0, 0, none, [], 0, 0, []⟩, [], 5⟩
        (Tracker.SchedEvent.tick 60000 60000 true true none [] "e1"
          ApiMap.RemoteResult.ok)).2
      = some ⟨5, (Tracker.tick ⟨0, 0, 0, none, [], 0, 0, []⟩ [] 60000 60000 true true
          none [] "e1" ApiMap.RemoteResult.ok).call⟩ :=
  ⟨by decide,
    (tick_gated_by_interval_only ⟨0, 0, 0, none, [], 0, 0, []⟩ [] 5 60000 60000
        true true none [] "e1" ApiMap.RemoteResult.ok).1 (by decide),
    (tick_gated_by_interval_only ⟨0, 0, 0, none, [], 0, 0, []⟩ [] 5 60000 60000
        true true none [] "e1" ApiMap.RemoteResult.ok).2⟩

/-- C4 counterexample: a heartbeat whose remote update fails still advances
`lastHeartbeat` (0 → 120000) and accrues the tick's delta into
`pendingDuration` (0 → 120000) before the call — the local accounting state
is not the same after the failed step as before it. -/
theorem failed_sync_changes_state_cx :
    (Tracker.sendHeartbeat ⟨0, 500000, 0, none, [("No project", 7)], 0, 0, []⟩
        [("No project", "e9")] 120000 true none [] "x" ApiMap.RemoteResult.fail).call
      = some (ApiMap.ApiCall.update "No project" "e9") ∧
    ¬ (Tracker.sendHeartbeat ⟨0, 500000, 0, none, [("No project", 7)], 0, 0, []⟩
        [("No project", "e9")] 120000 true none [] "x" ApiMap.RemoteResult.fail).state.lastHeartbeat
      = 0 ∧
    ¬ (Tracker.sendHeartbeat ⟨0, 500000, 0, none, [("No project", 7)], 0, 0, []⟩
        [("No project", "e9")] 120000 true none [] "x" ApiMap.RemoteResult.fail).state.pendingDuration
      = 0 := by
  decide

/-- C4 (amended): a failed remote sync is caught (the step is total — no
exception escapes), and the failure rolls nothing back: `totalTime`, the
project totals, the processed ids, the project binding and the remote entry
binding are unchanged, and one create/update call was attempted.  But the
step is not state-preserving: `lastHeartbeat` is advanced to the tick time
and the elapsed delta (when within the idle timeout) is added to
`pendingDuration` before the remote call and kept, so the next heartbeat
retries with a larger delta. -/
theorem failed_sync_caught_not_rolled_back (s : Tracker.TrackerState)
    (binding : List (String × String)) (now : Nat) (projectId : Option String)
    (entries : List Tracker.Entry) (newId : String)
    (hfresh : now - s.lastHeartbeat ≥ Tracker.FILE_CHANGE_THRESHOLD)
    (hsame : s.lastProjectId = projectId) :
    (Tracker.sendHeartbeat s binding now true projectId entries newId
        ApiMap.RemoteResult.fail).binding = binding ∧
    (Tracker.sendHeartbeat s binding now true projectId entries newId
        ApiMap.RemoteResult.fail).state.totalTime = s.totalTime ∧
    (Tracker.sendHeartbeat s binding now true projectId entries newId
        ApiMap.RemoteResult.fail).state.projectTime = s.projectTime ∧
    (Tracker.sendHeartbeat s binding now true projectId entries newId
        ApiMap.RemoteResult.fail).state.processedEntryIds = s.processedEntryIds ∧
    (Tracker.sendHeartbeat s binding now true projectId entries newId
        ApiMap.RemoteResult.fail).state.lastProjectId = s.lastProjectId ∧
    (Tracker.sendHeartbeat s binding now true projectId entries newId
        ApiMap.RemoteResult.fail).state.lastHeartbeat = now ∧
    (Tracker.sendHeartbeat s binding now true projectId entries newId
        ApiMap.RemoteResult.fail).state.pendingDuration
      = s.pendingDuration
        + (if now - s.lastHeartbeat ≤ Tracker.IDLE_TIMEOUT
            then now - s.lastHeartbeat else 0) ∧
    (Tracker.sendHeartbeat s binding now true projectId entries newId
        ApiMap.RemoteResult.fail).call.isSome = true := by
  obtain ⟨ht, hb⟩ := sendUpdate_fail binding projectId newId
  by_cases hidle : now - s.lastHeartbeat ≤ Tracker.IDLE_TIMEOUT
  all_goals
    simp [Tracker.sendHeartbeat, Tracker.sendTimeUpdate, hsame, hidle, ht, hb,
      getPST_totalTime, getPST_projectTime, getPST_processed, getPST_lastProjectId,
      getPST_lastHeartbeat, getPST_pendingDuration, Nat.not_lt.mpr hfresh]

/-- C4 amended-claim witness: the failed-sync invariants evaluated at a
concrete state two minutes after the last heartbeat. -/
theorem failed_sync_caught_not_rolled_back_witness :
    ((120000 : Nat) - 0 ≥ Tracker.FILE_CHANGE_THRESHOLD ∧
      (Option.none : Option String) = none) ∧
    ((Tracker.sendHeartbeat ⟨0, 500000, 0, none, [("No project", 7)], 0, 0, []⟩
        [("No project", "e9")] 120000 true none [] "x" ApiMap.RemoteResult.fail).binding
      = [("No project", "e9")] ∧
    (Tracker.sendHeartbeat ⟨0, 500000, 0, none, [("No project", 7)], 0, 0, []⟩
        [("No project", "e9")] 120000 true none [] "x" ApiMap.RemoteResult.fail).state.totalTime
      = 500000 ∧
    (Tracker.sendHeartbeat ⟨0, 500000, 0, none, [("No project", 7)], 0, 0, []⟩
        [("No project", "e9")] 120000 true none [] "x" ApiMap.RemoteResult.fail).state.projectTime
      = 0 ∧
    (Tracker.sendHeartbeat ⟨0, 500000, 0, none, [("No project", 7)], 0, 0, []⟩
        [("No project", "e9")] 120000 true none [] "x" ApiMap.RemoteResult.fail).state.processedEntryIds
      = [] ∧
    (Tracker.sendHeartbeat ⟨0, 500000, 0, none, [("No project", 7)], 0, 0, []⟩
        [("No project", "e9")] 120000 true none [] "x" ApiMap.RemoteResult.fail).state.lastProjectId
      = none ∧
    (Tracker.sendHeartbeat ⟨0, 500000, 0, none, [("No project", 7)], 0, 0, []⟩
        [("No project", "e9")] 120000 true none [] "x" ApiMap.RemoteResult.fail).state.lastHeartbeat
      = 120000 ∧
    (Tracker.sendHeartbeat ⟨0, 500000, 0, none, [("No project", 7)], 0, 0, []⟩
        [("No project", "e9")] 120000 true none [] "x" ApiMap.RemoteResult.fail).state.pendingDuration
      = 0 + (if (120000 : Nat) - 0 ≤ Tracker.IDLE_TIMEOUT then (120000 : Nat) - 0 else 0) ∧
    (Tracker.sendHeartbeat ⟨0, 500000, 0, none, [("No project", 7)], 0, 0, []⟩
        [("No project", "e9")] 120000 true none [] "x" ApiMap.RemoteResult.fail).call.isSome
      = true) :=
  ⟨⟨by decide, rfl⟩,
    failed_sync_caught_not_rolled_back ⟨0, 500000, 0, none, [("No project", 7)], 0, 0, []⟩
      [("No project", "e9")] 120000 none [] "x" (by decide) rfl⟩

/-- Ending a slice always leaves no open slice. -/
theorem endSlice_currentSlice (s : Service.ServiceState) (now : Nat) :
    (Service.endSlice s now).currentSlice = none := by
  cases h : s.currentSlice <;> simp [Service.endSlice, h]

theorem endSlice_remote (s : Service.ServiceState) (now : Nat) :
    (Service.endSlice s now).currentRemoteId = s.currentRemoteId := by
  cases h : s.currentSlice <;> simp [Service.endSlice, h]

theorem endSlice_synced (s : Service.ServiceState) (now : Nat) :
    (Service.endSlice s now).syncedMs = s.syncedMs := by
  cases h : s.currentSlice <;> simp [Service.endSlice, h]

/-- `flush` closes the open slice: afterwards no slice is open. -/
theorem flush_currentSlice (s : Service.ServiceState) (now : Nat) :
    (Service.flush s now).currentSlice = none := by
  unfold Service.flush
  dsimp only
  split <;> simp [endSlice_currentSlice]

theorem flush_remote (s : Service.ServiceState) (now : Nat) :
    (Service.flush s now).currentRemoteId = s.currentRemoteId := by
  unfold Service.flush
  dsimp only
  split <;> simp [endSlice_remote]

theorem flush_synced (s : Service.ServiceState) (now : Nat) :
    (Service.flush s now).syncedMs = s.syncedMs := by
  unfold Service.flush
  dsimp only
  split <;> simp [endSlice_synced]

theorem onActivity_remote (s : Service.ServiceState) (now : Nat) :
    (Service.onActivity s now).currentRemoteId = s.currentRemoteId := by
  cases h : s.currentSlice <;>
    simp [Service.onActivity, Service.beginSlice, h]

theorem beginSlice_remote (s : Service.ServiceState) (now : Nat) :
    (Service.beginSlice s now).currentRemoteId = s.currentRemoteId := rfl

theorem poll_remote (s : Service.ServiceState) (now : Nat) :
    (Service.idleWatcherPoll s now).currentRemoteId = s.currentRemoteId := by
  unfold Service.idleWatcherPoll
  split
  · split
    · exact endSlice_remote _ _
    · rfl
  · rfl

/-- When no remote entry is bound, `_beat` degenerates to a `flush`: the
initial `flush` closes any open slice, so the open-slice sync branch never
runs, and with no bound id the closing branch does nothing either. -/
theorem beat_remote_none (s : Service.ServiceState) (now : Nat) (newId : String)
    (h : s.currentRemoteId = none) :
    Service.beat s now newId = (Service.flush s now, []) := by
  unfold Service.beat
  dsimp only
  rw [flush_currentSlice, flush_remote, h]

/-- Invariant: every reachable state of `TimeTrackerService` has no bound
remote entry id — the branch of `_beat` that could bind one is unreachable
because `flush` has already closed the open slice when it is examined. -/
theorem reachable_remote_none {s : Service.ServiceState}
    (h : Service.Reachable s) : s.currentRemoteId = none := by
  induction h with
  | init ws th now => rfl
  | activity now hr ih => rw [onActivity_remote]; exact ih
  | pause now hr ih => rw [endSlice_remote]; exact ih
  | resume now hr ih => rw [beginSlice_remote]; exact ih
  | doFlush now hr ih => rw [flush_remote]; exact ih
  | poll now hr ih => rw [poll_remote]; exact ih
  | doBeat now newId hr ih => simp [beat_remote_none _ _ _ ih, flush_remote, ih]

/-- An idle-watcher poll strictly before the threshold elapses changes
nothing. -/
theorem poll_before_threshold (s : Service.ServiceState) (t : Nat)
    (h : t - s.lastActivity < s.idleThreshold) :
    Service.idleWatcherPoll s t = s := by
  unfold Service.idleWatcherPoll
  split
  · rw [if_neg (by omega)]
  · rfl

/-- C5: with the default `idleThreshold = 120000` ms, an activity event at
t=0 and no further activity, the watcher polls every 30000 ms (no more than
half the threshold apart); every poll strictly before t=120000 leaves the
state unchanged (no IDLE transition), and the poll at t=120000 — a poll
instant, `4 * 30000` — closes the slice (transition to IDLE). -/
theorem idle_detection_threshold (t : Nat) (ht : t < 120000) :
    Service.idleWatcherIntervalMs
        (Service.onActivity (Service.initState "ws" none 0) 0).idleThreshold = 30000 ∧
    2 * Service.idleWatcherIntervalMs
          (Service.onActivity (Service.initState "ws" none 0) 0).idleThreshold
      ≤ (Service.onActivity (Service.initState "ws" none 0) 0).idleThreshold ∧
    Service.idleWatcherPoll (Service.onActivity (Service.initState "ws" none 0) 0) t
      = Service.onActivity (Service.initState "ws" none 0) 0 ∧
    (Service.idleWatcherPoll (Service.onActivity (Service.initState "ws" none 0) 0)
        120000).currentSlice = none ∧
    120000 = 4 * Service.idleWatcherIntervalMs
        (Service.onActivity (Service.initState "ws" none 0) 0).idleThreshold := by
  refine ⟨by decide, by decide, ?_, by decide, by decide⟩
  exact poll_before_threshold _ t (show t - 0 < 120000 by omega)

/-- C5 witness: the poll at t=90000 (three intervals in) leaves the active
state unchanged. -/
theorem idle_detection_threshold_witness :
    (90000 : Nat) < 120000 ∧
    Service.idleWatcherPoll (Service.onActivity (Service.initState "ws" none 0) 0) 90000
      = Service.onActivity (Service.initState "ws" none 0) 0 :=
  ⟨by decide, (idle_detection_threshold 90000 (by decide)).2.2.1⟩

/-- C8: on every reachable state with an open active slice whose
elapsed-minus-synced delta is below the one-minute granularity, a heartbeat
`_beat` issues no remote create or update call and leaves `syncedMs` and the
remote entry binding unchanged.  (In fact the initial `flush` inside `_beat`
closes the open slice before the sync logic looks at it, and reachable states
never hold a bound remote id, so the skip holds for every open-slice tick.) -/
theorem below_granularity_beat_skips (s : Service.ServiceState) (now : Nat)
    (sl : Service.TimeSlice) (newId : String) (hreach : Service.Reachable s)
    (hslice : s.currentSlice = some sl)
    (hdelta : now - sl.startedAt - s.syncedMs < Service.ONE_MINUTE_MS) :
    (Service.beat s now newId).2 = [] ∧
    (Service.beat s now newId).1.syncedMs = s.syncedMs ∧
    (Service.beat s now newId).1.currentRemoteId = s.currentRemoteId := by
  have hnone := reachable_remote_none hreach
  rw [beat_remote_none s now newId hnone]
  exact ⟨rfl, flush_synced s now, by rw [show ((Service.flush s now, [])).1
    = Service.flush s now from rfl, flush_remote]⟩

/-- C8 witness: a beat 30 s into a fresh activity slice (delta 30000 < 60000)
on a reachable state. -/
theorem below_granularity_beat_skips_witness :
    (Service.onActivity (Service.initState "ws" none 0) 0).currentSlice
        = some ⟨"ws", 0, none⟩ ∧
    ((30000 : Nat) - (0 : Nat) - (0 : Nat) < Service.ONE_MINUTE_MS) ∧
    ((Service.beat (Service.onActivity (Service.initState "ws" none 0) 0) 30000 "id1").2
        = [] ∧
      (Service.beat (Service.onActivity (Service.initState "ws" none 0) 0) 30000 "id1").1.syncedMs
        = (Service.onActivity (Service.initState "ws" none 0) 0).syncedMs ∧
      (Service.beat (Service.onActivity (Service.initState "ws" none 0) 0) 30000 "id1").1.currentRemoteId
        = (Service.onActivity (Service.initState "ws" none 0) 0).currentRemoteId) :=
  ⟨rfl, by decide,
    below_granularity_beat_skips _ 30000 ⟨"ws", 0, none⟩ "id1"
      (Service.Reachable.activity 0 (Service.Reachable.init "ws" none 0)) rfl (by decide)⟩

/-- C6 witness: a create against an empty binding followed by an update
against the binding it produced. -/
theorem sendUpdate_create_vs_update_witness :
    (ApiMap.sendUpdate [] (some "p1") "id1" ApiMap.RemoteResult.ok
        = ⟨[("p1", "id1")], ApiMap.ApiCall.create "p1", false⟩ ∧
      ([("p1", "id1")] : List (String × String)).lookup "p1" = some "id1") ∧
    ApiMap.sendUpdate [("p1", "id1")] (some "p1") "id2" ApiMap.RemoteResult.ok
      = ⟨[("p1", "id1")], ApiMap.ApiCall.update "p1" "id1", false⟩ :=
  ⟨(sendUpdate_create_vs_update [] (some "p1") "id1").1 (by decide),
    (sendUpdate_create_vs_update [("p1", "id1")] (some "p1") "id2").2 "id1" (by decide)⟩
